import Mathlib

/-!
Verification of the webhook dispatch and lifecycle-management subsystem of
`Services/Services_bases/webhook_service/webhook_service.py`.

The Python class `WebHookService` is shallowly embedded as a Lean structure
`WebHookService` together with pure functions for each method.  Handler
callbacks are represented by an abstract type `H` (their identity); invoking
a handler or writing a log line is recorded as an `Event` in an event list,
so that theorems can speak about which callbacks were invoked, with which
data, and what was logged.  Authenticator callbacks are embedded directly as
Lean functions `String → Bool`.

The external collaborators (the gevent WSGI server constructor, the pyngrok
`ngrok.connect` call, and the blocking `serve_forever` loop) are modelled by
an `Env` record of their outcomes, so that the background thread body
`_start_server` becomes a deterministic function of the service state and
the environment.  Flask's routing of `'/webhook/<webhook_name>'` with
`methods=['POST']` is embedded in `dispatch` (method filtering yields 405
for a disallowed method and Flask's automatic handling answers OPTIONS;
the route handler itself is `webhook`).
-/

namespace WebhookSpec

/-- HTTP methods relevant to the routes of the service. -/
inductive Method where
  | GET
  | POST
  | PUT
  | DELETE
  | PATCH
  | HEAD
  | OPTIONS
  deriving DecidableEq, Repr

/-- Observable effects of running the embedded code: callback invocations,
log lines at each level used by the source, and calls into the external
collaborators (`ngrok.connect`, `serve_forever`, `ngrok.kill`,
`webhook_server.stop`), plus each assignment to `self.connected`. -/
inductive Event (H : Type) where
  | handlerInvoked : H → String → Event H
  | debugLog : String → Event H
  | warningLog : String → Event H
  | errorLog : String → Event H
  | exceptionLog : String → Event H
  | connectCalled : Nat → Event H
  | serveForeverCalled : Event H
  | ngrokKill : Event H
  | serverStopCalled : Event H
  | connectedWrite : Bool → Event H
  deriving DecidableEq, Repr

/-- An HTTP response: status code and body. -/
structure HttpResponse where
  status : Nat
  body : String
  deriving DecidableEq, Repr

/-- Python `dict` lookup `d[k]` (as an `Option`, `none` for `KeyError`). -/
def dictLookup {α : Type} (d : List (String × α)) (k : String) : Option α :=
  (d.find? (fun p => p.1 == k)).map (fun p => p.2)

/-- Python `k in d` containment test. -/
def dictContains {α : Type} (d : List (String × α)) (k : String) : Bool :=
  (dictLookup d k).isSome

/-- Python `dict` assignment `d[k] = v`: replaces the value of an existing
key in place, otherwise appends the binding (insertion order preserved). -/
def dictInsert {α : Type} (d : List (String × α)) (k : String) (v : α) :
    List (String × α) :=
  if dictContains d k then
    d.map (fun p => if p.1 == k then (k, v) else p)
  else
    d ++ [(k, v)]

/-- The keys of a Python `dict`, in insertion order. -/
def dictKeys {α : Type} (d : List (String × α)) : List String :=
  d.map (fun p => p.1)

/-- State of a `WebHookService` instance.  Fields mirror the attributes set
in `__init__`: `webhook_app` is `true` once the Flask app object exists,
`webhook_server` is `true` while `self.webhook_server` holds a `WSGIServer`
handle (i.e. is not `None`).  `events` accumulates the observable `Event`s
of the run.  The fields `webhook_server_context` and
`webhook_server_thread` carry no observable data and are omitted. -/
structure WebHookService (H : Type) where
  ngrok_public_url : String
  webhook_public_url : String
  service_feed_webhooks : List (String × H)
  service_feed_auth_callbacks : List (String × (String → Bool))
  webhook_app : Bool
  webhook_host : Option String
  webhook_port : Option Nat
  webhook_server : Bool
  connected : Option Bool
  events : List (Event H)

/-- Constructor `__init__`: all registries empty, no app, no server, `connected = None`. -/
def initService (H : Type) : WebHookService H :=
  { ngrok_public_url := ""
    webhook_public_url := ""
    service_feed_webhooks := []
    service_feed_auth_callbacks := []
    webhook_app := false
    webhook_host := none
    webhook_port := none
    webhook_server := false
    connected := none
    events := [] }

/-- Append an observable event (a log line or a collaborator call). -/
def logEv {H : Type} (s : WebHookService H) (e : Event H) : WebHookService H :=
  { s with events := s.events ++ [e] }

/-- The assignment `self.connected = b`, recorded as a `connectedWrite`. -/
def setConnected {H : Type} (s : WebHookService H) (b : Bool) :
    WebHookService H :=
  { s with connected := some b
           events := s.events ++ [Event.connectedWrite b] }

/-- Method `is_subscribed`: `feed_name in self.service_feed_webhooks`. -/
def is_subscribed {H : Type} (s : WebHookService H) (feed_name : String) :
    Bool :=
  dictContains s.service_feed_webhooks feed_name

/-- Method `subscribe_feed`: when the name is not yet registered, insert the
handler callback and the auth callback; otherwise raise
`KeyError(f"Service feed has already subscribed to a webhook : ...")`,
embedded as `Except.error` carrying the message. -/
def subscribe_feed {H : Type} (s : WebHookService H) (service_feed_name : String)
    (service_feed_callback : H) (auth_callback : String → Bool) :
    Except String (WebHookService H) :=
  if ¬ dictContains s.service_feed_webhooks service_feed_name then
    Except.ok
      { s with
        service_feed_webhooks :=
          dictInsert s.service_feed_webhooks service_feed_name
            service_feed_callback
        service_feed_auth_callbacks :=
          dictInsert s.service_feed_auth_callbacks service_feed_name
            auth_callback }
  else
    Except.error
      ("Service feed has already subscribed to a webhook : " ++
        service_feed_name)

/-- Method `get_subscribe_url`: `f"{self.webhook_public_url}/{service_feed_name}"`. -/
def get_subscribe_url {H : Type} (s : WebHookService H)
    (service_feed_name : String) : String :=
  s.webhook_public_url ++ "/" ++ service_feed_name

/-- The Flask route handler `webhook(webhook_name)` registered on
`'/webhook/<webhook_name>'`.  Returns the response together with the events
it produced.  A `KeyError` escaping the handler (auth-callback lookup on a
name present only in `service_feed_webhooks`) would surface as Flask's 500
internal-server-error response. -/
def webhook {H : Type} (s : WebHookService H) (webhook_name : String)
    (method : Method) (data : String) : HttpResponse × List (Event H) :=
  if dictContains s.service_feed_webhooks webhook_name then
    if method = Method.POST then
      match dictLookup s.service_feed_auth_callbacks webhook_name with
      | some auth_cb =>
        if auth_cb data then
          match dictLookup s.service_feed_webhooks webhook_name with
          | some cb => (⟨200, ""⟩, [Event.handlerInvoked cb data])
          | none => (⟨500, ""⟩, [])
        else
          (⟨200, ""⟩, [Event.debugLog ("Ignored feed (wrong token): " ++ data)])
      | none => (⟨500, ""⟩, [])
    else
      (⟨400, ""⟩, [])
  else
    (⟨500, ""⟩,
      [Event.warningLog ("Received unknown request from " ++ webhook_name)])

/-- Flask URL matching for the rule `'/webhook/<webhook_name>'`: the default
string converter matches one non-empty path segment without a slash (the
computation is phrased over the character list of the path). -/
def webhookPathName (path : String) : Option String :=
  let cs := path.toList
  if cs.take 9 = "/webhook/".toList then
    let rest := cs.drop 9
    if rest = [] ∨ '/' ∈ rest then none else some (String.mk rest)
  else none

/-- Flask request dispatch over the two registered routes.  The rule `'/'`
(no `methods` argument) allows GET and the automatic HEAD and OPTIONS; the
rule `'/webhook/<webhook_name>'` is registered with `methods=['POST']`, so
a disallowed method is rejected by routing with 405 Method Not Allowed and
OPTIONS is answered automatically, without invoking the handler.  The
service state is returned unchanged: neither handler assigns any attribute. -/
def dispatch {H : Type} (s : WebHookService H) (method : Method)
    (path : String) (data : String) :
    WebHookService H × HttpResponse × List (Event H) :=
  if path = "/" then
    match method with
    | Method.GET => (s, ⟨200, ""⟩, [])
    | Method.HEAD => (s, ⟨200, ""⟩, [])
    | Method.OPTIONS => (s, ⟨200, ""⟩, [])
    | _ => (s, ⟨405, ""⟩, [])
  else
    match webhookPathName path with
    | some name =>
      match method with
      | Method.POST =>
        let r := webhook s name Method.POST data
        (s, r.1, r.2)
      | Method.OPTIONS => (s, ⟨200, ""⟩, [])
      | _ => (s, ⟨405, ""⟩, [])
    | none => (s, ⟨404, ""⟩, [])

/-- Outcome of the external `ngrok.connect(port, "http")` call: a public
URL, a `PyngrokNgrokError`, or any other exception. -/
inductive NgrokOutcome where
  | ok : String → NgrokOutcome
  | ngrokError : String → NgrokOutcome
  | otherError : String → NgrokOutcome
  deriving DecidableEq, Repr

/-- Outcomes of the external collaborators during one background run:
whether the `WSGIServer` constructor raises `OSError` (with its message),
what `ngrok.connect` does, and whether `serve_forever` raises once entered
(`none` means it blocks until `stop()` and then returns normally). -/
structure Env where
  bindError : Option String
  ngrok : NgrokOutcome
  serveError : Option String
  deriving DecidableEq, Repr

/-- Method `_prepare_webhook_server`: construct the `WSGIServer` for
`(self.webhook_host, self.webhook_port)` and push the app context; on
`OSError` set `self.webhook_server = None` and log the exception. -/
def _prepare_webhook_server {H : Type} (s : WebHookService H)
    (bindError : Option String) : WebHookService H :=
  match bindError with
  | none => { s with webhook_server := true }
  | some e =>
    logEv { s with webhook_server := false }
      (Event.exceptionLog ("Fail to start webhook : " ++ e))

/-- The body of `_start_server` (the background thread), as the list of
service states after each executed statement; the last element is the state
when the thread function returns.  `_load_webhook_routes` registers the
routes modelled statically by `dispatch` and changes no observable state.
Control flow follows the source: the `try` block runs
`_prepare_webhook_server`, `_load_webhook_routes`, `ngrok.connect` (always
reached, even when the bind failed), the URL assignments, and — only when a
server handle exists — `self.connected = True` and `serve_forever()`;
`PyngrokNgrokError` is logged via `logger.error`, any other exception via
`logger.exception`; `self.connected = False` runs after the `try`/`except`
in every case. -/
def startServerTrace {H : Type} (s : WebHookService H) (env : Env) :
    List (WebHookService H) :=
  let s1 := _prepare_webhook_server s env.bindError
  let s2 := logEv s1 (Event.connectCalled (s1.webhook_port.getD 0))
  match env.ngrok with
  | NgrokOutcome.ngrokError msg =>
    let s3 := logEv s2
      (Event.errorLog
        ("Error when starting webhook service: Your ngrock.com token might be invalid. (" ++
          msg ++ ")"))
    let s4 := setConnected s3 false
    [s1, s2, s3, s4]
  | NgrokOutcome.otherError msg =>
    let s3 := logEv s2
      (Event.exceptionLog ("Error when running webhook service: (" ++ msg ++ ")"))
    let s4 := setConnected s3 false
    [s1, s2, s3, s4]
  | NgrokOutcome.ok url =>
    let s3 := { s2 with ngrok_public_url := url }
    let s4 := { s3 with webhook_public_url := url ++ "/webhook" }
    if s4.webhook_server then
      let s5 := setConnected s4 true
      let s6 := logEv s5 Event.serveForeverCalled
      match env.serveError with
      | some msg =>
        let s7 := logEv s6
          (Event.exceptionLog
            ("Error when running webhook service: (" ++ msg ++ ")"))
        let s8 := setConnected s7 false
        [s1, s2, s3, s4, s5, s6, s7, s8]
      | none =>
        let s7 := setConnected s6 false
        [s1, s2, s3, s4, s5, s6, s7]
    else
      let s5 := setConnected s4 false
      [s1, s2, s3, s4, s5]

/-- The final state of the background thread body `_start_server`. -/
def _start_server {H : Type} (s : WebHookService H) (env : Env) :
    WebHookService H :=
  (startServerTrace s env).getLastD s

/-- The sequence of values assigned to `self.connected` during a run, in
order (extracted from the recorded `connectedWrite` events). -/
def connectedWrites {H : Type} (s : WebHookService H) : List Bool :=
  s.events.filterMap (fun e =>
    match e with
    | Event.connectedWrite b => some b
    | _ => none)

/-- Method `stop`: `ngrok.kill()`, then `self.webhook_server.stop()` when a server
handle exists.  Neither `self.webhook_server` nor `self.connected` is
assigned. -/
def stop {H : Type} (s : WebHookService H) : WebHookService H :=
  let s1 := logEv s Event.ngrokKill
  if s1.webhook_server then logEv s1 Event.serverStopCalled else s1

/-- Method `start_webhooks`: when `self.webhook_app is None`, create the Flask app,
start the background thread running `_start_server`, and poll
`self.connected` every 10ms until it is non-`None` or 3 seconds elapse.
`connectedAtPollExit` is the value of the shared `self.connected` when the
polling loop exits: `none` means the timeout elapsed first (the background
thread had not yet written it), `some b` means the background thread wrote
`b`.  On timeout the code logs an error, calls `stop()` and forces
`self.connected = False`; it returns `self.connected is True`.  When
`self.webhook_app` is already set, the whole body is skipped and `True` is
returned. -/
def start_webhooks {H : Type} (s : WebHookService H)
    (connectedAtPollExit : Option Bool) : WebHookService H × Bool :=
  if s.webhook_app = false then
    let s1 := { s with webhook_app := true, connected := connectedAtPollExit }
    match connectedAtPollExit with
    | none =>
      let s2 := logEv s1
        (Event.errorLog "Webhook took too long to start, now stopping it.")
      let s3 := stop s2
      let s4 := setConnected s3 false
      (s4, s4.connected == some true)
    | some _ =>
      (s1, s1.connected == some true)
  else
    (s, true)

/-- The handler and authenticator registries have the same key sequence. -/
def registriesSynced {H : Type} (s : WebHookService H) : Prop :=
  dictKeys s.service_feed_webhooks = dictKeys s.service_feed_auth_callbacks

/-- A concrete service with one registered feed, used to evaluate the
router theorems: handler identity `1`, authenticator accepting exactly the
body `"good-token"`. -/
def feedService : WebHookService Nat :=
  { initService Nat with
    service_feed_webhooks := [("feedA", 1)]
    service_feed_auth_callbacks := [("feedA", fun data => data == "good-token")] }

/-- A concrete service right after `prepare` and Flask-app creation (host
and port resolved, app present), on which the background thread runs. -/
def startedService : WebHookService Nat :=
  { initService Nat with
    webhook_app := true
    webhook_host := some "127.0.0.1"
    webhook_port := some 80 }

/-- A concrete service after `prepare` but before `start_webhooks` (no app
yet), used to evaluate the foreground startup theorems. -/
def freshService : WebHookService Nat :=
  { initService Nat with
    webhook_host := some "127.0.0.1"
    webhook_port := some 80 }

/-- Environment of a fully successful run: bind succeeds, the tunnel
provider returns a URL, the serve loop later exits normally. -/
def envOk : Env :=
  { bindError := none
    ngrok := NgrokOutcome.ok "http://u.io"
    serveError := none }

/-- Environment where binding the listener fails with `OSError` while the
tunnel provider would succeed. -/
def envBindFail : Env :=
  { bindError := some "[Errno 98] Address already in use"
    ngrok := NgrokOutcome.ok "http://u.io"
    serveError := none }

/-- Environment where the bind succeeds but `ngrok.connect` raises
`PyngrokNgrokError`. -/
def envNgrokFail : Env :=
  { bindError := none
    ngrok := NgrokOutcome.ngrokError "invalid token"
    serveError := none }

@[simp] theorem logEv_connected {H : Type} (s : WebHookService H) (e : Event H) :
    (logEv s e).connected = s.connected := rfl

@[simp] theorem logEv_webhook_server {H : Type} (s : WebHookService H) (e : Event H) :
    (logEv s e).webhook_server = s.webhook_server := rfl

@[simp] theorem logEv_webhook_public_url {H : Type} (s : WebHookService H) (e : Event H) :
    (logEv s e).webhook_public_url = s.webhook_public_url := rfl

@[simp] theorem logEv_webhook_app {H : Type} (s : WebHookService H) (e : Event H) :
    (logEv s e).webhook_app = s.webhook_app := rfl

@[simp] theorem logEv_events {H : Type} (s : WebHookService H) (e : Event H) :
    (logEv s e).events = s.events ++ [e] := rfl

@[simp] theorem logEv_webhook_port {H : Type} (s : WebHookService H) (e : Event H) :
    (logEv s e).webhook_port = s.webhook_port := rfl

@[simp] theorem logEv_ngrok_public_url {H : Type} (s : WebHookService H) (e : Event H) :
    (logEv s e).ngrok_public_url = s.ngrok_public_url := rfl

@[simp] theorem setConnected_webhook_port {H : Type} (s : WebHookService H) (b : Bool) :
    (setConnected s b).webhook_port = s.webhook_port := rfl

@[simp] theorem setConnected_webhook_app {H : Type} (s : WebHookService H) (b : Bool) :
    (setConnected s b).webhook_app = s.webhook_app := rfl

@[simp] theorem setConnected_connected {H : Type} (s : WebHookService H) (b : Bool) :
    (setConnected s b).connected = some b := rfl

@[simp] theorem setConnected_webhook_server {H : Type} (s : WebHookService H) (b : Bool) :
    (setConnected s b).webhook_server = s.webhook_server := rfl

@[simp] theorem setConnected_webhook_public_url {H : Type} (s : WebHookService H) (b : Bool) :
    (setConnected s b).webhook_public_url = s.webhook_public_url := rfl

@[simp] theorem setConnected_events {H : Type} (s : WebHookService H) (b : Bool) :
    (setConnected s b).events = s.events ++ [Event.connectedWrite b] := rfl

theorem dictContains_iff_mem_keys {α : Type} (d : List (String × α)) (k : String) :
    dictContains d k = true ↔ k ∈ dictKeys d := by
  simp [dictContains, dictLookup, dictKeys, List.find?_isSome, List.mem_map]

theorem dictInsert_of_not_contains {α : Type} (d : List (String × α))
    (k : String) (v : α) (h : dictContains d k = false) :
    dictInsert d k v = d ++ [(k, v)] := by
  simp [dictInsert, h]

theorem synced_contains_eq {H : Type} (s : WebHookService H)
    (hsync : registriesSynced s) (k : String) :
    dictContains s.service_feed_webhooks k =
      dictContains s.service_feed_auth_callbacks k := by
  have h1 := dictContains_iff_mem_keys s.service_feed_webhooks k
  have h2 := dictContains_iff_mem_keys s.service_feed_auth_callbacks k
  rw [registriesSynced] at hsync
  rw [hsync] at h1
  cases hw : dictContains s.service_feed_webhooks k <;>
    cases ha : dictContains s.service_feed_auth_callbacks k <;> simp_all

theorem webhookPathName_ne_root {path name : String}
    (hpath : webhookPathName path = some name) : path ≠ "/" := by
  intro h
  subst h
  rw [show webhookPathName "/" = none from rfl] at hpath
  exact Option.noConfusion hpath

/-- C1: a POST to `/webhook/<name>` for a registered feed invokes the
registered handler exactly once, with the exact raw request body, iff the
feed's authenticator applied to that body returns `true`; when the
authenticator returns `false` the handler is not invoked and a debug-level
line is logged; in both cases the response is status 200 with empty body
and the service state is untouched. -/
theorem dispatch_post_known_feed {H : Type} (s : WebHookService H)
    (path name data : String) (cb : H) (auth_cb : String → Bool)
    (hpath : webhookPathName path = some name)
    (hcb : dictLookup s.service_feed_webhooks name = some cb)
    (hauth : dictLookup s.service_feed_auth_callbacks name = some auth_cb) :
    dispatch s Method.POST path data =
      (s, ⟨200, ""⟩,
        if auth_cb data then [Event.handlerInvoked cb data]
        else [Event.debugLog ("Ignored feed (wrong token): " ++ data)]) := by
  have hroot := webhookPathName_ne_root hpath
  by_cases had : auth_cb data <;>
    simp [dispatch, hroot, hpath, webhook, dictContains, hcb, hauth, had]

/-- Witness for C1: both authenticator outcomes evaluated on the concrete
single-feed service. -/
theorem dispatch_post_known_feed_witness :
    dispatch feedService Method.POST "/webhook/feedA" "good-token" =
      (feedService, ⟨200, ""⟩, [Event.handlerInvoked 1 "good-token"]) ∧
    dispatch feedService Method.POST "/webhook/feedA" "bad" =
      (feedService, ⟨200, ""⟩,
        [Event.debugLog "Ignored feed (wrong token): bad"]) := by
  have h1 := dispatch_post_known_feed feedService "/webhook/feedA" "feedA"
    "good-token" 1 (fun data => data == "good-token") rfl rfl rfl
  have h2 := dispatch_post_known_feed feedService "/webhook/feedA" "feedA"
    "bad" 1 (fun data => data == "good-token") rfl rfl rfl
  refine ⟨?_, ?_⟩
  · simpa using h1
  · simpa using h2

/-- C2 counterexample: a GET to `/webhook/feedA` on a service where `feedA`
is registered is answered with status 405 (Flask rejects the method, since
the route is registered with `methods=['POST']` only), not 400 as claimed;
no handler is dispatched. -/
theorem get_webhook_returns_405_not_400 :
    (dispatch feedService Method.GET "/webhook/feedA" "").2.1 = ⟨405, ""⟩ ∧
    (dispatch feedService Method.GET "/webhook/feedA" "").2.1.status ≠ 400 ∧
    (dispatch feedService Method.GET "/webhook/feedA" "").2.2 = [] ∧
    is_subscribed feedService "feedA" = true := by
  refine ⟨rfl, by decide, rfl, rfl⟩

/-- C2 (amended): a request to `/webhook/<name>` whose method is not POST
never reaches the handler (so no feed callback is dispatched) and — except
for OPTIONS, which Flask answers automatically — is rejected by the routing
layer with status 405 Method Not Allowed rather than the handler's
unreachable 400 branch. -/
theorem dispatch_non_post_rejected_405 {H : Type} (s : WebHookService H)
    (m : Method) (path name data : String)
    (hpath : webhookPathName path = some name)
    (hm : m ≠ Method.POST) (ho : m ≠ Method.OPTIONS) :
    dispatch s m path data = (s, ⟨405, ""⟩, []) := by
  have hroot := webhookPathName_ne_root hpath
  cases m <;> simp_all [dispatch, hroot, hpath]

/-- Witness for the amended C2 at a PUT request. -/
theorem dispatch_non_post_rejected_405_witness :
    dispatch feedService Method.PUT "/webhook/feedA" "" =
      (feedService, ⟨405, ""⟩, []) :=
  dispatch_non_post_rejected_405 feedService Method.PUT "/webhook/feedA"
    "feedA" "" rfl (by decide) (by decide)

/-- C8: a POST to `/webhook/<name>` where `<name>` is not registered logs a
warning mentioning the name, is answered with status 500 and an empty body,
invokes no handler, and leaves the service state unchanged. -/
theorem dispatch_post_unknown_feed {H : Type} (s : WebHookService H)
    (path name data : String)
    (hpath : webhookPathName path = some name)
    (hunknown : dictLookup s.service_feed_webhooks name = none) :
    dispatch s Method.POST path data =
      (s, ⟨500, ""⟩,
        [Event.warningLog ("Received unknown request from " ++ name)]) := by
  have hroot := webhookPathName_ne_root hpath
  simp [dispatch, hroot, hpath, webhook, dictContains, hunknown]

/-- Witness for C8 at the unregistered feed name `unknownFeed`. -/
theorem dispatch_post_unknown_feed_witness :
    dispatch feedService Method.POST "/webhook/unknownFeed" "body" =
      (feedService, ⟨500, ""⟩,
        [Event.warningLog "Received unknown request from unknownFeed"]) := by
  have h := dispatch_post_unknown_feed feedService "/webhook/unknownFeed"
    "unknownFeed" "body" rfl rfl
  simpa using h

theorem subscribe_feed_of_contains {H : Type} (s : WebHookService H)
    (name : String) (cb : H) (ac : String → Bool)
    (h : dictContains s.service_feed_webhooks name = true) :
    subscribe_feed s name cb ac =
      Except.error
        ("Service feed has already subscribed to a webhook : " ++ name) := by
  simp [subscribe_feed, h]

theorem subscribe_feed_of_not_contains {H : Type} (s : WebHookService H)
    (name : String) (cb : H) (ac : String → Bool)
    (hsync : registriesSynced s)
    (h : dictContains s.service_feed_webhooks name = false) :
    subscribe_feed s name cb ac = Except.ok
      { s with
        service_feed_webhooks := s.service_feed_webhooks ++ [(name, cb)]
        service_feed_auth_callbacks :=
          s.service_feed_auth_callbacks ++ [(name, ac)] } := by
  have hauth : dictContains s.service_feed_auth_callbacks name = false := by
    rw [← synced_contains_eq s hsync name]
    exact h
  simp [subscribe_feed, h, dictInsert_of_not_contains _ _ _ h,
    dictInsert_of_not_contains _ _ _ hauth]

/-- C6: on a service with synced registries, subscribing an
already-registered feed name raises the duplicate-subscription `KeyError`
(the embedded call returns no new state, so the first registration's
handler and authenticator survive untouched), while subscribing a fresh
name appends exactly the new handler and the new authenticator to the two
registries — both together — and changes nothing else. -/
theorem subscribe_feed_correct {H : Type} (s : WebHookService H)
    (name : String) (cb : H) (ac : String → Bool)
    (hsync : registriesSynced s) :
    (dictContains s.service_feed_webhooks name = true →
      subscribe_feed s name cb ac =
        Except.error
          ("Service feed has already subscribed to a webhook : " ++ name)) ∧
    (dictContains s.service_feed_webhooks name = false →
      subscribe_feed s name cb ac = Except.ok
        { s with
          service_feed_webhooks := s.service_feed_webhooks ++ [(name, cb)]
          service_feed_auth_callbacks :=
            s.service_feed_auth_callbacks ++ [(name, ac)] }) :=
  ⟨subscribe_feed_of_contains s name cb ac,
    subscribe_feed_of_not_contains s name cb ac hsync⟩

/-- Witness for C6: a duplicate subscription on `feedA` errors and a fresh
subscription on `feedB` appends both bindings. -/
theorem subscribe_feed_correct_witness :
    subscribe_feed feedService "feedA" 2 (fun _ => false) =
      Except.error "Service feed has already subscribed to a webhook : feedA" ∧
    subscribe_feed feedService "feedB" 2 (fun _ => false) = Except.ok
      { feedService with
        service_feed_webhooks :=
          feedService.service_feed_webhooks ++ [("feedB", 2)]
        service_feed_auth_callbacks :=
          feedService.service_feed_auth_callbacks ++
            [("feedB", fun _ => false)] } := by
  have h1 := (subscribe_feed_correct feedService "feedA" 2
    (fun _ => false) rfl).1 rfl
  have h2 := (subscribe_feed_correct feedService "feedB" 2
    (fun _ => false) rfl).2 rfl
  exact ⟨by simpa using h1, h2⟩

/-- C10 (implicit): the handler registry and the authenticator registry have
the same key sequence after construction and after every successful
subscription (the only mutating operation inserts into both together), so
whenever the router finds a feed name in the handler registry the lookup of
that feed's authenticator succeeds as well. -/
theorem registries_stay_synced {H : Type} (s s' : WebHookService H)
    (name : String) (cb : H) (ac : String → Bool) :
    registriesSynced (initService H) ∧
    (registriesSynced s → subscribe_feed s name cb ac = Except.ok s' →
      registriesSynced s') ∧
    (registriesSynced s → dictContains s.service_feed_webhooks name = true →
      (dictLookup s.service_feed_auth_callbacks name).isSome = true) := by
  refine ⟨rfl, fun hsync hok => ?_, fun hsync hc => ?_⟩
  · by_cases h : dictContains s.service_feed_webhooks name = true
    · simp [subscribe_feed, h] at hok
    · rw [Bool.not_eq_true] at h
      rw [subscribe_feed_of_not_contains s name cb ac hsync h] at hok
      cases hok
      simp [registriesSynced, dictKeys] at hsync ⊢
      exact hsync
  · have := synced_contains_eq s hsync name
    rw [hc] at this
    exact this.symm

/-- Witness for C10: evaluated on the single-feed service, whose registries
share the key sequence `[feedA]`. -/
theorem registries_stay_synced_witness :
    registriesSynced
      { feedService with
        service_feed_webhooks :=
          feedService.service_feed_webhooks ++ [("feedB", 2)]
        service_feed_auth_callbacks :=
          feedService.service_feed_auth_callbacks ++
            [("feedB", fun _ => false)] } ∧
    (dictLookup feedService.service_feed_auth_callbacks "feedA").isSome =
      true := by
  have h := registries_stay_synced feedService
    { feedService with
      service_feed_webhooks :=
        feedService.service_feed_webhooks ++ [("feedB", 2)]
      service_feed_auth_callbacks :=
        feedService.service_feed_auth_callbacks ++
          [("feedB", fun _ => false)] }
    "feedB" 2 (fun _ => false)
  have h2 := registries_stay_synced feedService feedService "feedA" 1
    (fun data => data == "good-token")
  exact ⟨h.2.1 rfl rfl, h2.2.2 rfl rfl⟩

/-- C7: whenever the tunnel provider returns `url` and the bind succeeds,
the run reaches Connected, `webhook_public_url` becomes `url ++ "/webhook"`,
and for every feed name the subscription URL is exactly the public base URL
with `"/" ++ name` appended; moreover `get_subscribe_url` is deterministic
in the public base URL. -/
theorem get_subscribe_url_spec {H : Type} (s : WebHookService H) (env : Env)
    (url : String) (hbind : env.bindError = none)
    (hng : env.ngrok = NgrokOutcome.ok url) :
    Event.connectedWrite true ∈ (_start_server s env).events ∧
    (_start_server s env).webhook_public_url = url ++ "/webhook" ∧
    (∀ name, get_subscribe_url (_start_server s env) name =
      url ++ "/webhook" ++ "/" ++ name) ∧
    (∀ (s1 s2 : WebHookService H) (name : String),
      s1.webhook_public_url = s2.webhook_public_url →
      get_subscribe_url s1 name = get_subscribe_url s2 name) := by
  cases hse : env.serveError
  all_goals
    simp [_start_server, startServerTrace, _prepare_webhook_server,
      get_subscribe_url, hbind, hng, hse]
    intro s1 s2 name hw
    rw [hw]

/-- Witness for C7 with the stub tunnel URL of `envOk`. -/
theorem get_subscribe_url_spec_witness :
    Event.connectedWrite true ∈ (_start_server startedService envOk).events ∧
    (_start_server startedService envOk).webhook_public_url =
      "http://u.io/webhook" ∧
    get_subscribe_url (_start_server startedService envOk) "feedA" =
      "http://u.io/webhook/feedA" := by
  have h := get_subscribe_url_spec startedService envOk "http://u.io" rfl rfl
  refine ⟨h.1, ?_, ?_⟩
  · rw [h.2.1]
    decide
  · rw [h.2.2.1 "feedA"]
    decide

/-- C3 counterexample: in a run whose bind fails (`envBindFail` carries an
`OSError`), the background routine does not exit before the tunnel: the
Tunnel Client connect is still called (for port 80), although the claim
says it must not be. -/
theorem bind_failure_still_calls_connect :
    envBindFail.bindError.isSome = true ∧
    Event.connectCalled 80 ∈ (_start_server startedService envBindFail).events ∧
    (_start_server startedService envBindFail).connected = some false := by
  refine ⟨rfl, by decide, rfl⟩

/-- C3 (amended): on bind failure the server handle is cleared, the
exception is logged, the run ends with the status Failed, and the serve
loop is never entered; however the background routine does not exit before
the tunnel: `connect` is still called. -/
theorem bind_failure_behavior {H : Type} (s : WebHookService H) (env : Env)
    (e : String) (hb : env.bindError = some e) (hev : s.events = []) :
    (_start_server s env).webhook_server = false ∧
    (_start_server s env).connected = some false ∧
    Event.exceptionLog ("Fail to start webhook : " ++ e) ∈
      (_start_server s env).events ∧
    Event.connectCalled (s.webhook_port.getD 0) ∈ (_start_server s env).events ∧
    Event.serveForeverCalled ∉ (_start_server s env).events := by
  cases hng : env.ngrok <;> cases hse : env.serveError <;>
    simp [_start_server, startServerTrace, _prepare_webhook_server,
      hb, hng, hse, hev]

/-- Witness for the amended C3 on the concrete bind-failure environment. -/
theorem bind_failure_behavior_witness :
    (_start_server startedService envBindFail).webhook_server = false ∧
    (_start_server startedService envBindFail).connected = some false ∧
    Event.serveForeverCalled ∉ (_start_server startedService envBindFail).events := by
  have h := bind_failure_behavior startedService envBindFail
    "[Errno 98] Address already in use" rfl rfl
  exact ⟨h.1, h.2.1, h.2.2.2.2⟩

/-- C4 counterexample: in a fully successful run (`envOk`) the value of
`connected` is written `True` and, after the serve loop ends, written
`False` again — the status does move from Connected to Failed, so Connected
is not terminal. -/
theorem connected_true_then_false :
    connectedWrites (_start_server startedService envOk) = [true, false] := by
  decide

/-- C4 (amended): per background run `connected` is written at most twice —
possibly `True` when serving begins and always finally `False` when the
background routine exits — so the run ends with the status Failed even
after it was Connected. -/
theorem connectedWrites_shape {H : Type} (s : WebHookService H) (env : Env)
    (hev : s.events = []) :
    (connectedWrites (_start_server s env) = [false] ∨
      connectedWrites (_start_server s env) = [true, false]) ∧
    (_start_server s env).connected = some false := by
  cases hb : env.bindError <;> cases hng : env.ngrok <;>
    cases hse : env.serveError <;>
      simp [_start_server, startServerTrace, _prepare_webhook_server,
        connectedWrites, hb, hng, hse, hev]

/-- Witness for the amended C4 on the successful run. -/
theorem connectedWrites_shape_witness :
    (connectedWrites (_start_server startedService envOk) = [false] ∨
      connectedWrites (_start_server startedService envOk) = [true, false]) ∧
    (_start_server startedService envOk).connected = some false :=
  connectedWrites_shape startedService envOk rfl

/-- C5 counterexample: after a first call that timed out (and hence forced
the status to Failed while leaving the Flask app in place), a second call
to `start_webhooks` returns `True` although the connection status is
Failed — refuting that the return value is `True` iff the status is
Connected at return time. -/
theorem repeat_start_returns_true_when_failed :
    (start_webhooks (start_webhooks freshService none).1 none).2 = true ∧
    (start_webhooks (start_webhooks freshService none).1 none).1.connected =
      some false := by
  decide

/-- C5 (amended): on a first call (no Flask app yet) `start_webhooks`
returns `True` iff `connected` is `True` at return time, and on handshake
timeout it logs an error, calls `stop()` (killing the tunnel), forces
`connected = False` and returns `False`; a repeat call with the app already
created, however, returns `True` regardless of the status. -/
theorem start_webhooks_first_call {H : Type} (s : WebHookService H)
    (obs : Option Bool) (h : s.webhook_app = false) :
    (((start_webhooks s obs).2 = true) ↔
      ((start_webhooks s obs).1.connected = some true)) ∧
    (obs = none →
      (start_webhooks s obs).2 = false ∧
      (start_webhooks s obs).1.connected = some false ∧
      Event.errorLog "Webhook took too long to start, now stopping it." ∈
        (start_webhooks s obs).1.events ∧
      Event.ngrokKill ∈ (start_webhooks s obs).1.events) := by
  cases obs with
  | none =>
    by_cases hs : s.webhook_server <;>
      simp [start_webhooks, stop, h, hs]
  | some b =>
    refine ⟨?_, by simp⟩
    cases b <;> simp [start_webhooks, h]

/-- Witness for the amended C5: a timed-out first call on the fresh
service. -/
theorem start_webhooks_first_call_witness :
    (start_webhooks freshService none).2 = false ∧
    (start_webhooks freshService none).1.connected = some false := by
  have h := (start_webhooks_first_call freshService none rfl).2 rfl
  exact ⟨h.1, h.2.1⟩

/-- C9 counterexample: in the run where the bind succeeds but the tunnel
fails (`envNgrokFail`), every state of the background run has a live
listener handle, yet the status is NotYetStarted in the first three states
and Failed in the last — so "listener non-null iff status Connected" fails
in reachable states. -/
theorem listener_without_connected :
    ((startServerTrace startedService envNgrokFail).map
        (fun t => (t.webhook_server, t.connected)) =
      [(true, none), (true, none), (true, none), (true, some false)]) ∧
    ¬ (startServerTrace startedService envNgrokFail).Forall
        (fun t => (t.webhook_server = true ↔ t.connected = some true)) := by
  refine ⟨by decide, fun hall => ?_⟩
  exact Option.noConfusion (hall.1.mp rfl)

/-- C9 (amended): only one direction of the invariant holds — along every
background run started with `connected = None`, every state whose status is
Connected has a live listener handle (the converse is refuted above). -/
theorem connected_implies_listener {H : Type} (s : WebHookService H)
    (env : Env) (hc : s.connected = none) :
    (startServerTrace s env).Forall
      (fun t => t.connected = some true → t.webhook_server = true) := by
  cases hb : env.bindError <;> cases hng : env.ngrok <;>
    cases hse : env.serveError <;>
      simp [startServerTrace, _prepare_webhook_server, List.Forall,
        hb, hng, hse, hc]

/-- Witness for the amended C9 on the successful run. -/
theorem connected_implies_listener_witness :
    (startServerTrace startedService envOk).Forall
      (fun t => t.connected = some true → t.webhook_server = true) :=
  connected_implies_listener startedService envOk rfl

end WebhookSpec
